import Mathlib

/-
Shallow embedding of the smart-wallet provisioning and session-key linkage
core of the repository (src/pages/index.tsx, src/pages/api/wallet-storage.ts,
src/unnamed/part_000).

Modelling conventions:
- Strings of the TypeScript code are Lean `String`s; the JavaScript
  `s.startsWith('0x')` test and `s.toLowerCase()` comparisons are modelled
  over `String.data` (the character list) so that they evaluate.
- Asynchronous SDK calls (`signerToEcdsaValidator`, `createKernelAccount`,
  `toECDSASigner`/`toPermissionValidator`, `sendTransaction`, the axios
  calls) are modelled by explicit environments: a `Chain` record of pure
  derivation functions (the SDK derives a kernel-account address
  deterministically from the signer key and index) together with Boolean
  failure flags for each awaited step, or `Except`-valued outcomes.
- The React component state (walletInfo, sessionKeyInfo, kernelClient,
  sessionClient) is an explicit `SessionState` threaded through the flows;
  clients are represented by their account address.
- The JSON file behind the storage API is modelled by the outcome of
  `JSON.parse` on its contents (`Except Unit StorageData`), and a written
  file by the mapping it serialises.
-/

namespace WalletApp

/-- Model of the JavaScript `s.startsWith('0x')` test used by the transfer
functions: the string begins with the characters `0` then `x`. -/
def starts0x (s : String) : Bool :=
  match s.data with
  | '0' :: 'x' :: _ => true
  | _ => false

/-- Model of a JavaScript `s.toLowerCase()` comparison: lower-cased
character data of the string. -/
def lowerData (s : String) : List Char := s.data.map Char.toLower

/-- `WalletInfo` of src/pages/index.tsx lines 108-113: the persisted owner
wallet tuple. -/
structure WalletInfo where
  address : String
  privateKey : String
  index : String
  network : String
deriving DecidableEq, Repr

/-- `SessionKeyInfo` of src/pages/index.tsx lines 115-120: the persisted
session-key tuple. -/
structure SessionKeyInfo where
  address : String
  privateKey : String
  accountAddress : String
  network : String
deriving DecidableEq, Repr

/-- `UserWalletData` of src/pages/api/wallet-storage.ts lines 25-28. -/
structure UserWalletData where
  walletInfo : WalletInfo
  sessionKeyInfo : SessionKeyInfo
deriving DecidableEq, Repr

/-- `StorageData` of src/pages/api/wallet-storage.ts lines 31-33: a JSON
object keyed by userId, modelled as a map from userId to an optional
record. -/
def StorageData := String → Option UserWalletData

/-- The empty storage object `{}`. -/
def emptyStorage : StorageData := fun _ => none

/-- `readStorageData` of wallet-storage.ts lines 43-52: `JSON.parse` the
file contents, and on a parse error return the empty object.  The argument
is the outcome of parsing the current file contents. -/
def readStorageData (parsed : Except Unit StorageData) : StorageData :=
  match parsed with
  | .ok d => d
  | .error _ => emptyStorage

/-- The responses the API handler of wallet-storage.ts can produce. -/
inductive ApiResponse where
  | okData (body : UserWalletData)
  | okSuccess
  | badRequest
  | notFound
  | methodNotAllowed
deriving DecidableEq, Repr

/-- The object assignment `storageData[userId] = record` of
wallet-storage.ts line 96. -/
def putRecord (userId : String) (rec : UserWalletData) (d : StorageData) :
    StorageData :=
  fun u => if u = userId then some rec else d u

/-- The `delete storageData[userId]` statement of wallet-storage.ts
line 115. -/
def deleteRecord (userId : String) (d : StorageData) : StorageData :=
  fun u => if u = userId then none else d u

/-- The GET branch of `handler` (wallet-storage.ts lines 66-81): a missing
or non-string userId is a 400, a missing record a 404, otherwise the
record is returned. -/
def handleGet (parsed : Except Unit StorageData) (userId : Option String) :
    ApiResponse :=
  match userId with
  | none => .badRequest
  | some u =>
    match readStorageData parsed u with
    | none => .notFound
    | some rec => .okData rec

/-- The POST branch of `handler` (wallet-storage.ts lines 83-99).  The
second component is the mapping written back to the file (`none` when no
write happens). -/
def handlePost (parsed : Except Unit StorageData) (userId : Option String)
    (w : Option WalletInfo) (s : Option SessionKeyInfo) :
    ApiResponse × Option StorageData :=
  match userId with
  | none => (.badRequest, none)
  | some u =>
    match w, s with
    | some wi, some si =>
      (.okSuccess, some (putRecord u ⟨wi, si⟩ (readStorageData parsed)))
    | _, _ => (.badRequest, none)

/-- The DELETE branch of `handler` (wallet-storage.ts lines 101-118). -/
def handleDelete (parsed : Except Unit StorageData) (userId : Option String) :
    ApiResponse × Option StorageData :=
  match userId with
  | none => (.badRequest, none)
  | some u =>
    match readStorageData parsed u with
    | none => (.notFound, none)
    | some _ => (.okSuccess, some (deleteRecord u (readStorageData parsed)))

/-- The deterministic on-chain derivation surface consumed by the flows:
`deriveOwnerAddress pk idx` is the address of the kernel account created
from the ECDSA validator of the signer with private key `pk` at account
index `idx` (`createKernelAccount` with a `sudo` plugin only);
`deriveSessionAddress opk spk idx` is the address of the kernel account
created with the owner's `sudo` validator plus the `regular` permission
plugin of the session signer `spk` at index `idx`; `signerAddress pk` is
`privateKeyToAccount(pk).address`.  Modelling these as functions captures
that the SDK derivation is a pure function of its inputs. -/
structure Chain where
  deriveOwnerAddress : String → String → String
  deriveSessionAddress : String → String → String → String
  signerAddress : String → String

/-- The React component state holding the in-memory session
(src/pages/index.tsx lines 417-420); a client is represented by the
address of its account. -/
structure SessionState where
  walletInfo : Option WalletInfo
  sessionKeyInfo : Option SessionKeyInfo
  kernelClient : Option String
  sessionClient : Option String
deriving DecidableEq, Repr

/-- The state before any wallet is created or restored: all four state
variables are `null`. -/
def Uninitialized : SessionState := ⟨none, none, none, none⟩

/-- Environment of one `createWalletAndSessionKey` run: the chain being
derived against, whether a Privy embedded wallet was found, the two
freshly generated private keys, and one failure flag per awaited step
(ECDSA validator construction, owner kernel-account creation, session
validator/permission-plugin construction, session kernel-account
creation, and the persistence call). -/
structure CreateEnv where
  chain : Chain
  embeddedWalletFound : Bool
  walletPrivateKey : String
  sessionPrivateKey : String
  ecdsaValidatorFails : Bool
  ownerAccountFails : Bool
  sessionValidatorFails : Bool
  sessionAccountFails : Bool
  saveFails : Bool

/-- Result of the API-store variant of `createWalletAndSessionKey`
(src/pages/index.tsx lines 615-811): final component state, final API
store, the value returned to the caller, and whether the address-equality
check of lines 757-766 logged its mismatch warning. -/
structure CreateOutcome where
  state : SessionState
  store : StorageData
  result : Option (WalletInfo × SessionKeyInfo)
  linkageWarned : Bool

/-- `createWalletAndSessionKey` of src/pages/index.tsx lines 615-811.
The account index is fixed to `BigInt(1)` (line 663, stored as the string
`"1"`).  Failures of awaited steps are caught by the surrounding
`try`/`catch`, which only shows a toast and returns `null`: state already
set is not rolled back.  The address comparison of lines 757-766 only
logs a warning; the record is persisted by the axios POST of lines
779-793 regardless (a POST failure is caught locally and the flow still
returns the created pair). -/
def createWalletAndSessionKey (env : CreateEnv) (userId : Option String)
    (st : SessionState) (store : StorageData) : CreateOutcome :=
  if env.embeddedWalletFound = false then ⟨st, store, none, false⟩
  else if env.ecdsaValidatorFails then ⟨st, store, none, false⟩
  else if env.ownerAccountFails then ⟨st, store, none, false⟩
  else
    let walletAddr := env.chain.deriveOwnerAddress env.walletPrivateKey "1"
    let wInfo : WalletInfo := ⟨walletAddr, env.walletPrivateKey, "1", "BASE"⟩
    let st1 : SessionState :=
      { st with kernelClient := some walletAddr, walletInfo := some wInfo }
    if env.sessionValidatorFails then ⟨st1, store, none, false⟩
    else if env.sessionAccountFails then ⟨st1, store, none, false⟩
    else
      let sessionAccountAddr :=
        env.chain.deriveSessionAddress env.walletPrivateKey
          env.sessionPrivateKey "1"
      let warned := lowerData sessionAccountAddr != lowerData walletAddr
      let sInfo : SessionKeyInfo :=
        ⟨env.chain.signerAddress env.sessionPrivateKey,
         env.sessionPrivateKey, sessionAccountAddr, "BASE"⟩
      let st2 : SessionState :=
        { st1 with sessionClient := some sessionAccountAddr,
                   sessionKeyInfo := some sInfo }
      let store2 :=
        match userId with
        | some u =>
          if env.saveFails then store else putRecord u ⟨wInfo, sInfo⟩ store
        | none => store
      ⟨st2, store2, some (wInfo, sInfo), warned⟩

/-- The localStorage store of the src/unnamed/part_000 variant: the two
keys `zeroDevWalletInfo` and `zeroDevSessionInfo`. -/
structure LocalStore where
  walletInfo : Option WalletInfo
  sessionInfo : Option SessionKeyInfo
deriving DecidableEq, Repr

/-- Result of the part_000 variant of `createWalletAndSessionKey`. -/
structure LocalCreateOutcome where
  state : SessionState
  store : LocalStore
  result : Option (WalletInfo × SessionKeyInfo)
  linkageWarned : Bool
deriving DecidableEq, Repr

/-- `createWalletAndSessionKey` of src/unnamed/part_000 lines 271-464.
Identical staging, except that the wallet info is written to localStorage
(line 363) as soon as step 1 completes — before the session key exists —
and the session info is written separately at line 449.  A failure during
step 2 is caught by the surrounding `try`/`catch`, which does not remove
the already-written wallet entry nor reset the already-set state. -/
def createWalletAndSessionKeyLocal (env : CreateEnv) (st : SessionState)
    (store : LocalStore) : LocalCreateOutcome :=
  if env.embeddedWalletFound = false then ⟨st, store, none, false⟩
  else if env.ecdsaValidatorFails then ⟨st, store, none, false⟩
  else if env.ownerAccountFails then ⟨st, store, none, false⟩
  else
    let walletAddr := env.chain.deriveOwnerAddress env.walletPrivateKey "1"
    let wInfo : WalletInfo := ⟨walletAddr, env.walletPrivateKey, "1", "BASE"⟩
    let st1 : SessionState :=
      { st with kernelClient := some walletAddr, walletInfo := some wInfo }
    let store1 : LocalStore := { store with walletInfo := some wInfo }
    if env.sessionValidatorFails then ⟨st1, store1, none, false⟩
    else if env.sessionAccountFails then ⟨st1, store1, none, false⟩
    else
      let sessionAccountAddr :=
        env.chain.deriveSessionAddress env.walletPrivateKey
          env.sessionPrivateKey "1"
      let warned := lowerData sessionAccountAddr != lowerData walletAddr
      let sInfo : SessionKeyInfo :=
        ⟨env.chain.signerAddress env.sessionPrivateKey,
         env.sessionPrivateKey, sessionAccountAddr, "BASE"⟩
      let st2 : SessionState :=
        { st1 with sessionClient := some sessionAccountAddr,
                   sessionKeyInfo := some sInfo }
      let store2 : LocalStore := { store1 with sessionInfo := some sInfo }
      ⟨st2, store2, some (wInfo, sInfo), warned⟩

/-- Environment of one restoration run: the chain, and a failure flag per
awaited step of `initializeFromSavedData` (loading the wallet signer from
the stored private key, ECDSA validator construction, owner
kernel-account creation, session validator construction, session
kernel-account creation). -/
structure RestoreEnv where
  chain : Chain
  walletSignerFails : Bool
  ecdsaValidatorFails : Bool
  ownerAccountFails : Bool
  sessionValidatorFails : Bool
  sessionAccountFails : Bool

/-- Result of `initializeFromSavedData`: the component state afterwards,
whether the function ran to completion, the replayed owner
kernel-account address when that step was reached, and whether the
`catch` block was entered.  In src/pages/index.tsx the `catch` (lines
605-611) dereferences `STORAGE_KEYS`, an identifier that does not exist
in that module, so entering it faults instead of clearing anything; the
flag records that the faulting cleanup path ran. -/
structure RestoreOutcome where
  state : SessionState
  succeeded : Bool
  replayedWalletAddress : Option String
  cleanupFault : Bool
deriving Repr

/-- `initializeFromSavedData` of src/pages/index.tsx lines 509-612:
replays the validator and kernel-account derivations from the persisted
private keys at the persisted index, setting the four state variables as
it goes.  Any step failure lands in the `catch`, which leaves whatever
state was already set and runs the faulting cleanup; it never touches the
API store. -/
def initializeFromSavedData (env : RestoreEnv) (walletData : WalletInfo)
    (sessionData : SessionKeyInfo) (st : SessionState) : RestoreOutcome :=
  if env.walletSignerFails then ⟨st, false, none, true⟩
  else if env.ecdsaValidatorFails then ⟨st, false, none, true⟩
  else if env.ownerAccountFails then ⟨st, false, none, true⟩
  else
    let walletAddr :=
      env.chain.deriveOwnerAddress walletData.privateKey walletData.index
    let st1 : SessionState :=
      { st with kernelClient := some walletAddr,
                walletInfo := some walletData }
    if env.sessionValidatorFails then ⟨st1, false, some walletAddr, true⟩
    else if env.sessionAccountFails then ⟨st1, false, some walletAddr, true⟩
    else
      let sessionAccountAddr :=
        env.chain.deriveSessionAddress walletData.privateKey
          sessionData.privateKey walletData.index
      let st2 : SessionState :=
        { st1 with sessionClient := some sessionAccountAddr,
                   sessionKeyInfo := some sessionData }
      ⟨st2, true, some walletAddr, false⟩

/-- The `loadExistingWallet` restoration path of src/pages/index.tsx lines
438-471: fetch the record for the user from the storage API; when the GET
fails (404, no record) nothing happens; otherwise run
`initializeFromSavedData` on it.  The API store itself is returned
unchanged in every branch: no code path of the restoration writes to or
deletes from it. -/
def restoreWallet (env : RestoreEnv) (u : String) (store : StorageData)
    (st : SessionState) : RestoreOutcome × StorageData :=
  match store u with
  | none => (⟨st, false, none, false⟩, store)
  | some rec =>
    (initializeFromSavedData env rec.walletInfo rec.sessionKeyInfo st, store)

/-- `AMOUNT_USDC` of src/pages/index.tsx line 435: 10000 units
(0.01 USDC). -/
def AMOUNT_USDC : Int := 10000

/-- `TARGET_ADDRESS` of src/pages/index.tsx line 433. -/
def TARGET_ADDRESS : String := "0x8D33614Cbc97B59F8408aD67E520549F57F80055"

/-- `USDC_TOKEN_ADDRESS` of src/pages/index.tsx line 54. -/
def USDC_TOKEN_ADDRESS : String :=
  "0x833589fCD6eDb6E08f4c7C32D4f71b54bdA02913"

/-- `checkUSDCBalance` of src/pages/index.tsx lines 202-236: the argument
is the outcome of the on-chain `balanceOf` read; the `catch` of lines
232-235 turns any read failure into the value `0n`. -/
def checkUSDCBalance (readResult : Except Unit Int) : Int :=
  match readResult with
  | .ok balance => balance
  | .error _ => 0

/-- How a `transfer` call can end: `submitted h` is a returned user
operation hash, `noResult` a plain `return undefined`, `invalidAddress`
the thrown `Error('Invalid address format')`, `submissionError` a
rethrown `sendTransaction` failure. -/
inductive TransferResult where
  | submitted (hash : String)
  | noResult
  | invalidAddress
  | submissionError
deriving DecidableEq, Repr

/-- Environment of one dispatch: the outcome the bundler gives to
`kernelClient.sendTransaction`. -/
structure TransferEnv where
  sendTransaction : Except Unit String

/-- `transfer` of src/pages/index.tsx lines 137-199 together with the
number of account operations submitted.  The address precondition (lines
145-147) tests only `toAddress.startsWith('0x')`.  With a token address
the ERC-20 branch encodes the token-transfer call and submits one
operation whose hash is returned.  Without one, the native branch (lines
186-194) only logs the parameters: it submits nothing and the function
returns `undefined`. -/
def transfer (env : TransferEnv) (toAddress : String) (amount : Int)
    (tokenAddress : Option String) : TransferResult × Nat :=
  if starts0x toAddress = false then (.invalidAddress, 0)
  else
    match tokenAddress with
    | some _ =>
      match env.sendTransaction with
      | .ok h => (.submitted h, 1)
      | .error _ => (.submissionError, 1)
    | none => (.noResult, 0)

/-- How `sendUSDC` can end for its caller. -/
inductive SendOutcome where
  | noClient
  | insufficientBalance
  | sent (hash : String)
  | transferFailed
deriving DecidableEq, Repr

/-- `sendUSDC` of src/pages/index.tsx lines 835-868: the balance gate
`!usdcBalance || usdcBalance < AMOUNT_USDC` (line 841, where `null` and
`0n` are falsy) blocks the transfer; otherwise the USDC transfer is
dispatched through `transfer` with the token address.  The triple is the
outcome, the operation handle handed back (the `txHash`), and the number
of operations submitted. -/
def sendUSDC (env : TransferEnv) (sessionClientPresent : Bool)
    (usdcBalance : Option Int) : SendOutcome × Option String × Nat :=
  if sessionClientPresent = false then (.noClient, none, 0)
  else
    match usdcBalance with
    | none => (.insufficientBalance, none, 0)
    | some v =>
      if v = 0 ∨ v < AMOUNT_USDC then (.insufficientBalance, none, 0)
      else
        match transfer env TARGET_ADDRESS AMOUNT_USDC
            (some USDC_TOKEN_ADDRESS) with
        | (.submitted h, n) => (.sent h, some h, n)
        | (_, n) => (.transferFailed, none, n)

/-- Whether a character is a hexadecimal digit. -/
def isHexChar (c : Char) : Bool :=
  (('0' ≤ c && c ≤ '9') || ('a' ≤ c && c ≤ 'f') || ('A' ≤ c && c ≤ 'F'))

/-- Modelled from the spec: "the network's address format" (spec section
4.6).  The source never defines or checks the full format; on the BASE
network an address is `0x` followed by exactly 40 hexadecimal digits. -/
def matchesAddressFormat (s : String) : Bool :=
  starts0x s && s.data.length == 42 && (s.data.drop 2).all isHexChar

/-- `transfer` of src/unnamed/part_000 lines 34-63: the native-only
variant of the dispatcher; after the same prefix check it submits one
value-transfer operation via `sendTransaction` and returns its hash. -/
def transferLocal (env : TransferEnv) (toAddress : String) (amount : Int) :
    TransferResult × Nat :=
  if starts0x toAddress = false then (.invalidAddress, 0)
  else
    match env.sendTransaction with
    | .ok h => (.submitted h, 1)
    | .error _ => (.submissionError, 1)

/-- Helper: the prefix test accepts the hard-coded target address. -/
theorem starts0x_target : starts0x TARGET_ADDRESS = true := by decide

/-- Claim C5: on the native-asset path the dispatcher of
src/pages/index.tsx submits no operation and returns no handle — the
branch at lines 186-194 only logs the parameters and falls through to
`return undefined` — while the sibling dispatcher of src/unnamed/part_000
(and `transferETH` of the other page variant) submits one operation and
returns its hash at the same input, showing the truncated branch is a
slip. -/
theorem c5_native_transfer_absent :
    transfer ⟨Except.ok "0xophash"⟩ TARGET_ADDRESS 5 none =
      (TransferResult.noResult, 0) ∧
    transferLocal ⟨Except.ok "0xophash"⟩ TARGET_ADDRESS 5 =
      (TransferResult.submitted "0xophash", 1) := by decide

/-- Claim C6: for a transfer with a prior balance read, a balance below
the requested `AMOUNT_USDC` fails the gate with the insufficient-balance
outcome and produces no handle and no operation, while a balance at
least `AMOUNT_USDC` passes the gate, submits exactly one operation, and
(when the bundler accepts it) returns its hash as the handle. -/
theorem c6_balance_gate (env : TransferEnv) (b : Int) :
    (b < AMOUNT_USDC →
      sendUSDC env true (some b) =
        (SendOutcome.insufficientBalance, none, 0)) ∧
    (AMOUNT_USDC ≤ b →
      (sendUSDC env true (some b)).2.2 = 1 ∧
      ∀ h, env.sendTransaction = Except.ok h →
        sendUSDC env true (some b) = (SendOutcome.sent h, some h, 1)) := by
  constructor
  · intro hb
    simp [sendUSDC, if_pos (Or.inr hb)]
  · intro hb
    have hA : AMOUNT_USDC = (10000 : Int) := rfl
    have hnz : ¬ (b = 0 ∨ b < AMOUNT_USDC) := by omega
    constructor
    · cases henv : env.sendTransaction with
      | ok h => simp [sendUSDC, hnz, transfer, starts0x_target, henv]
      | error e => simp [sendUSDC, hnz, transfer, starts0x_target, henv]
    · intro h hh
      simp [sendUSDC, hnz, transfer, starts0x_target, hh]

/-- Witness for C6 at the spec's scenario values: a prior read of 15000
units sends and returns the handle; a prior read of 5000 units fails
with the insufficient-balance outcome and no handle. -/
theorem c6_balance_gate_witness :
    sendUSDC ⟨Except.ok "0xh"⟩ true (some 5000) =
      (SendOutcome.insufficientBalance, none, 0) ∧
    sendUSDC ⟨Except.ok "0xh"⟩ true (some 15000) =
      (SendOutcome.sent "0xh", some "0xh", 1) :=
  ⟨(c6_balance_gate ⟨Except.ok "0xh"⟩ 5000).1 (by decide),
   ((c6_balance_gate ⟨Except.ok "0xh"⟩ 15000).2 (by decide)).2 "0xh" rfl⟩

/-- Claim C7 fails on the code: a failed balance read does not surface a
distinct unavailable-balance result — `checkUSDCBalance` silently
resolves it to `0n`, and the send flow then reports exactly the
insufficient-balance outcome. -/
theorem c7_counterexample :
    checkUSDCBalance (Except.error ()) = 0 ∧
    sendUSDC ⟨Except.ok "0xh"⟩ true
        (some (checkUSDCBalance (Except.error ()))) =
      (SendOutcome.insufficientBalance, none, 0) := by decide

/-- Claim C7 amended: every transient read failure resolves to the
balance value 0, which the send flow reports as the insufficient-balance
outcome; the code has no distinct unavailable-balance result. -/
theorem c7_failed_read_reports_insufficient (env : TransferEnv) (e : Unit) :
    checkUSDCBalance (Except.error e) = 0 ∧
    sendUSDC env true (some (checkUSDCBalance (Except.error e))) =
      (SendOutcome.insufficientBalance, none, 0) := by
  constructor
  · rfl
  · simp [sendUSDC, checkUSDCBalance]

/-- Witness for the amended C7 at a concrete dispatch environment. -/
theorem c7_failed_read_reports_insufficient_witness :
    checkUSDCBalance (Except.error ()) = 0 ∧
    sendUSDC ⟨Except.ok "0xw"⟩ true
        (some (checkUSDCBalance (Except.error ()))) =
      (SendOutcome.insufficientBalance, none, 0) :=
  c7_failed_read_reports_insufficient ⟨Except.ok "0xw"⟩ ()

/-- Claim C8 fails on the code: `"0xzz"` does not match the network's
address format, yet the dispatcher does not fail with an invalid-address
error — it submits the operation anyway, because the precondition tests
only the `0x` prefix. -/
theorem c8_counterexample :
    matchesAddressFormat "0xzz" = false ∧
    transfer ⟨Except.ok "0xh"⟩ "0xzz" 5 (some USDC_TOKEN_ADDRESS) =
      (TransferResult.submitted "0xh", 1) := by decide

/-- Claim C8 amended: the dispatcher fails with the invalid-address error
exactly when the recipient does not start with `0x`; every address
matching the network's format passes the precondition (the format
implies the prefix), but so does any malformed string carrying the
prefix. -/
theorem c8_prefix_only_validation (env : TransferEnv) (toAddress : String)
    (amount : Int) (tokenAddress : Option String) :
    ((transfer env toAddress amount tokenAddress).1 =
        TransferResult.invalidAddress ↔ starts0x toAddress = false) ∧
    (matchesAddressFormat toAddress = true → starts0x toAddress = true) := by
  constructor
  · cases hs : starts0x toAddress with
    | false => simp [transfer, hs]
    | true =>
      cases tokenAddress with
      | none => simp [transfer, hs]
      | some t =>
        cases henv : env.sendTransaction <;> simp [transfer, hs, henv]
  · intro hm
    simp only [matchesAddressFormat, Bool.and_eq_true] at hm
    exact hm.1.1

/-- Witness for the amended C8: a recipient without the prefix is
rejected as an invalid address, and the well-formed target address
passes the prefix test. -/
theorem c8_prefix_only_validation_witness :
    (transfer ⟨Except.ok "0xh"⟩ "nohex" 1 none).1 =
      TransferResult.invalidAddress ∧
    starts0x TARGET_ADDRESS = true :=
  ⟨((c8_prefix_only_validation ⟨Except.ok "0xh"⟩ "nohex" 1 none).1).mpr
      (by decide),
   (c8_prefix_only_validation ⟨Except.ok "0xh"⟩ TARGET_ADDRESS 1 none).2
      (by decide)⟩

/-- Claim C9: a POST for `u1` writes back exactly the mapping with the
record under `u1` replaced whole; that write and a DELETE of `u1` leave
the record under any other `u2` unchanged; the key `u1` holds the last
written record. -/
theorem c9_store_frame (m : StorageData) (u1 u2 : String)
    (w w2 : WalletInfo) (s s2 : SessionKeyInfo) (h : u1 ≠ u2) :
    (handlePost (Except.ok m) (some u1) (some w) (some s)).2 =
      some (putRecord u1 ⟨w, s⟩ m) ∧
    putRecord u1 ⟨w, s⟩ m u2 = m u2 ∧
    putRecord u1 ⟨w, s⟩ m u1 = some ⟨w, s⟩ ∧
    putRecord u1 ⟨w2, s2⟩ (putRecord u1 ⟨w, s⟩ m) u1 = some ⟨w2, s2⟩ ∧
    putRecord u1 ⟨w2, s2⟩ (putRecord u1 ⟨w, s⟩ m) u2 = m u2 ∧
    (handleDelete (Except.ok (putRecord u1 ⟨w, s⟩ m)) (some u1)).2 =
      some (deleteRecord u1 (putRecord u1 ⟨w, s⟩ m)) ∧
    deleteRecord u1 (putRecord u1 ⟨w, s⟩ m) u2 = m u2 ∧
    deleteRecord u1 (putRecord u1 ⟨w, s⟩ m) u1 = none := by
  have h2 : u2 ≠ u1 := Ne.symm h
  simp [handlePost, handleDelete, readStorageData, putRecord, deleteRecord,
    h2]

/-- Witness for C9 at concrete users and records. -/
theorem c9_store_frame_witness :
    putRecord "u1" ⟨⟨"0xA", "wk", "1", "BASE"⟩, ⟨"0xB", "sk", "0xA", "BASE"⟩⟩
        emptyStorage "u2" = none ∧
    deleteRecord "u1"
        (putRecord "u1"
          ⟨⟨"0xA", "wk", "1", "BASE"⟩, ⟨"0xB", "sk", "0xA", "BASE"⟩⟩
          emptyStorage) "u1" = none := by
  have h := c9_store_frame emptyStorage "u1" "u2" ⟨"0xA", "wk", "1", "BASE"⟩
    ⟨"0xA2", "wk2", "1", "BASE"⟩ ⟨"0xB", "sk", "0xA", "BASE"⟩
    ⟨"0xB2", "sk2", "0xA2", "BASE"⟩ (by decide)
  exact ⟨h.2.1, h.2.2.2.2.2.2.2⟩

/-- Claim C10: with a file that fails to parse, `readStorageData` is the
empty mapping, a GET for any user answers 404 (not found), and the next
POST writes back a mapping holding only the newly written record. -/
theorem c10_corrupt_file_resets (u : String) (w : WalletInfo)
    (s : SessionKeyInfo) :
    readStorageData (Except.error ()) = emptyStorage ∧
    handleGet (Except.error ()) (some u) = ApiResponse.notFound ∧
    handlePost (Except.error ()) (some u) (some w) (some s) =
      (ApiResponse.okSuccess, some (putRecord u ⟨w, s⟩ emptyStorage)) ∧
    putRecord u ⟨w, s⟩ emptyStorage u = some ⟨w, s⟩ ∧
    (∀ v, v ≠ u → putRecord u ⟨w, s⟩ emptyStorage v = none) := by
  refine ⟨rfl, rfl, rfl, ?_, ?_⟩
  · simp [putRecord]
  · intro v hv
    simp [putRecord, hv, emptyStorage]

/-- Witness for C10 at a concrete user and record. -/
theorem c10_corrupt_file_resets_witness :
    handleGet (Except.error ()) (some "u1") = ApiResponse.notFound ∧
    putRecord "u1" ⟨⟨"0xA", "wk", "1", "BASE"⟩, ⟨"0xB", "sk", "0xA", "BASE"⟩⟩
        emptyStorage "u2" = none := by
  have h := c10_corrupt_file_resets "u1" ⟨"0xA", "wk", "1", "BASE"⟩
    ⟨"0xB", "sk", "0xA", "BASE"⟩
  exact ⟨h.2.1, h.2.2.2.2 "u2" (by decide)⟩

/-- A concrete derivation environment for evaluating the flows: the
session binding resolves to the owner-derived address, as intended. -/
def demoChain : Chain :=
  ⟨fun pk idx => "0xACCT:" ++ pk ++ ":" ++ idx,
   fun opk _spk idx => "0xACCT:" ++ opk ++ ":" ++ idx,
   fun pk => "0xEOA:" ++ pk⟩

/-- A derivation environment in which the session binding resolves to a
different account than the owner signer. -/
def mismatchChain : Chain :=
  ⟨demoChain.deriveOwnerAddress, fun _ _ _ => "0xWRONG",
   demoChain.signerAddress⟩

/-- A create environment over the given chain in which every awaited
step succeeds. -/
def okCreateEnv (chain : Chain) : CreateEnv :=
  ⟨chain, true, "wk", "sk", false, false, false, false, false⟩

/-- The create flow evaluated with a mismatching session binding. -/
def c1Outcome : CreateOutcome :=
  createWalletAndSessionKey (okCreateEnv mismatchChain) (some "u1")
    Uninitialized emptyStorage

/-- Claim C1 fails on the code: when the session-bound account address
differs from the owner-derived address, the create flow of
src/pages/index.tsx logs the mismatch warning but raises no error,
returns the created pair, and persists the WalletRecord for the user. -/
theorem c1_counterexample :
    c1Outcome.linkageWarned = true ∧ c1Outcome.result ≠ none ∧
    c1Outcome.store "u1" ≠ none := by decide

/-- Claim C1 amended: after binding, the flow compares the lower-cased
session-bound account address with the smart-wallet address, but a
mismatch only logs a warning — the flow still returns the pair and the
WalletRecord is persisted for the userId regardless of the outcome of
the comparison. -/
theorem c1_mismatch_only_warns_and_persists (env : CreateEnv) (u : String)
    (hf : env.embeddedWalletFound = true)
    (h1 : env.ecdsaValidatorFails = false)
    (h2 : env.ownerAccountFails = false)
    (h3 : env.sessionValidatorFails = false)
    (h4 : env.sessionAccountFails = false)
    (h5 : env.saveFails = false) :
    (createWalletAndSessionKey env (some u) Uninitialized
        emptyStorage).linkageWarned =
      (lowerData (env.chain.deriveSessionAddress env.walletPrivateKey
          env.sessionPrivateKey "1") !=
        lowerData (env.chain.deriveOwnerAddress env.walletPrivateKey "1")) ∧
    (createWalletAndSessionKey env (some u) Uninitialized
        emptyStorage).result ≠ none ∧
    (createWalletAndSessionKey env (some u) Uninitialized
        emptyStorage).store u ≠ none := by
  simp [createWalletAndSessionKey, hf, h1, h2, h3, h4, h5, putRecord]

/-- Witness for the amended C1 at the mismatching environment. -/
theorem c1_mismatch_only_warns_and_persists_witness :
    (createWalletAndSessionKey (okCreateEnv mismatchChain) (some "u2")
        Uninitialized emptyStorage).result ≠ none :=
  (c1_mismatch_only_warns_and_persists (okCreateEnv mismatchChain) "u2"
    rfl rfl rfl rfl rfl rfl).2.1

/-- The part_000 create flow evaluated with the session kernel-account
creation failing after step 1 succeeded. -/
def c2Outcome : LocalCreateOutcome :=
  createWalletAndSessionKeyLocal
    ⟨demoChain, true, "wk", "sk", false, false, false, true, false⟩
    Uninitialized ⟨none, none⟩

/-- Claim C2 fails on the code: when session kernel-account creation
fails mid-sequence, the create flow of src/unnamed/part_000 leaves the
wallet info persisted in the store without any session info — a partial
WalletRecord — and the in-memory state keeps the wallet rather than
returning to the uninitialized state. -/
theorem c2_counterexample :
    c2Outcome.result = none ∧ c2Outcome.store.walletInfo ≠ none ∧
    c2Outcome.store.sessionInfo = none ∧
    c2Outcome.state ≠ Uninitialized := by decide

/-- Claim C2 amended: a failure before the wallet-info write leaves the
store and state untouched, but the wallet info is persisted as soon as
step 1 completes, so any failure during the session-key steps leaves
walletInfo persisted without sessionKeyInfo and the state still holding
the wallet. -/
theorem c2_failure_after_wallet_write_keeps_walletinfo (env : CreateEnv)
    (st : SessionState) (store : LocalStore)
    (hf : env.embeddedWalletFound = true)
    (h1 : env.ecdsaValidatorFails = false)
    (h2 : env.ownerAccountFails = false)
    (h3 : env.sessionValidatorFails = true ∨
      env.sessionAccountFails = true) :
    (createWalletAndSessionKeyLocal env st store).result = none ∧
    (createWalletAndSessionKeyLocal env st store).store.walletInfo =
      some ⟨env.chain.deriveOwnerAddress env.walletPrivateKey "1",
        env.walletPrivateKey, "1", "BASE"⟩ ∧
    (createWalletAndSessionKeyLocal env st store).store.sessionInfo =
      store.sessionInfo ∧
    (createWalletAndSessionKeyLocal env st store).state.walletInfo =
      some ⟨env.chain.deriveOwnerAddress env.walletPrivateKey "1",
        env.walletPrivateKey, "1", "BASE"⟩ := by
  rcases h3 with h3 | h3
  · simp [createWalletAndSessionKeyLocal, hf, h1, h2, h3]
  · cases hv : env.sessionValidatorFails <;>
      simp [createWalletAndSessionKeyLocal, hf, h1, h2, h3, hv]

/-- Witness for the amended C2 at the failing concrete environment. -/
theorem c2_failure_after_wallet_write_keeps_walletinfo_witness :
    c2Outcome.result = none ∧
    c2Outcome.store.walletInfo = some ⟨"0xACCT:wk:1", "wk", "1", "BASE"⟩ :=
  ⟨(c2_failure_after_wallet_write_keeps_walletinfo
      ⟨demoChain, true, "wk", "sk", false, false, false, true, false⟩
      Uninitialized ⟨none, none⟩ rfl rfl rfl (Or.inr rfl)).1,
   ((c2_failure_after_wallet_write_keeps_walletinfo
      ⟨demoChain, true, "wk", "sk", false, false, false, true, false⟩
      Uninitialized ⟨none, none⟩ rfl rfl rfl (Or.inr rfl)).2.1).trans
     (by decide)⟩

/-- One fully successful run of the create flow for the round trip. -/
def roundtripCreate (chain : Chain) (wk sk u : String) : CreateOutcome :=
  createWalletAndSessionKey
    ⟨chain, true, wk, sk, false, false, false, false, false⟩ (some u)
    Uninitialized emptyStorage

/-- The subsequent restoration in a fresh process: a fresh uninitialized
state over the store the create left behind. -/
def roundtripRestore (chain : Chain) (wk sk u : String) : RestoreOutcome :=
  (restoreWallet ⟨chain, false, false, false, false, false⟩ u
    (roundtripCreate chain wk sk u).store Uninitialized).1

/-- Claim C3: after a successful create, restoring the same user in a
fresh process reads the persisted record, replays derivation from the
stored owner private key and index, and reaches an identity with the
same address the create returned. -/
theorem c3_create_restore_roundtrip (chain : Chain) (wk sk u : String) :
    ∃ w s, (roundtripCreate chain wk sk u).result = some (w, s) ∧
      (roundtripRestore chain wk sk u).succeeded = true ∧
      (roundtripRestore chain wk sk u).replayedWalletAddress =
        some w.address ∧
      (roundtripRestore chain wk sk u).state.walletInfo = some w ∧
      (roundtripRestore chain wk sk u).state.sessionKeyInfo = some s := by
  refine ⟨⟨chain.deriveOwnerAddress wk "1", wk, "1", "BASE"⟩,
    ⟨chain.signerAddress sk, sk, chain.deriveSessionAddress wk sk "1",
      "BASE"⟩, ?_, ?_, ?_, ?_, ?_⟩ <;>
    simp [roundtripCreate, roundtripRestore, createWalletAndSessionKey,
      restoreWallet, initializeFromSavedData, putRecord]

/-- Witness for C3 at a concrete chain, key pair and user. -/
theorem c3_create_restore_roundtrip_witness :
    ∃ w s, (roundtripCreate demoChain "wk" "sk" "u1").result = some (w, s) ∧
      (roundtripRestore demoChain "wk" "sk" "u1").succeeded = true ∧
      (roundtripRestore demoChain "wk" "sk" "u1").replayedWalletAddress =
        some w.address ∧
      (roundtripRestore demoChain "wk" "sk" "u1").state.walletInfo =
        some w ∧
      (roundtripRestore demoChain "wk" "sk" "u1").state.sessionKeyInfo =
        some s :=
  c3_create_restore_roundtrip demoChain "wk" "sk" "u1"

/-- A persisted record whose replay will fail (its private key cannot be
loaded). -/
def c4Record : UserWalletData :=
  ⟨⟨"0xACCT:wk:1", "wk", "1", "BASE"⟩,
   ⟨"0xEOA:sk", "sk", "0xACCT:wk:1", "BASE"⟩⟩

/-- Restoration of the record when loading the stored wallet signer
throws. -/
def c4Restore : RestoreOutcome × StorageData :=
  restoreWallet ⟨demoChain, true, false, false, false, false⟩ "u1"
    (putRecord "u1" c4Record emptyStorage) Uninitialized

/-- Claim C4 evaluated at the failing input: when the replay of a stored
record fails, the restoration of src/pages/index.tsx does not delete the
record from the WalletStore — it is still present for the user
afterwards — and the cleanup path of its `catch` block itself faults,
because it dereferences a storage-key table that does not exist in that
module. -/
theorem c4_corrupt_record_never_deleted :
    c4Restore.1.succeeded = false ∧ c4Restore.1.cleanupFault = true ∧
    c4Restore.2 "u1" = some c4Record ∧
    c4Restore.1.state = Uninitialized := by decide

end WalletApp
